import Mathlib

/-!
Shallow embedding of the Windows capture engine of the `scap` repository
(`src/scap/src/capturer/engine/win/mod.rs`): geometry resolution
(`get_source_rect`, `get_output_frame_size`), the frame-arrival transform
(`on_frame_arrived` of the `WindowsCaptureHandler` impl for `Capturer`),
the stream lifecycle (`WinStream::start_capture` / `WinStream::stop_capture`)
and the constructor `create_capturer`.

Modelling conventions:
- `f64` values are modelled as exact rationals; every arithmetic operation
  the embedded code performs on them (adding a small integer, comparing,
  truncating) is exact in `f64` over the value ranges the claims concern.
- Rust numeric casts are modelled explicitly: float-to-integer `as` casts
  saturate at the target bounds and truncate toward zero (`f64_as_i64`,
  `f64_as_u32`, `f64_as_i32`); the integer-to-integer cast `u32 as i32`
  wraps (`u32_as_i32`).
- Fallible platform calls (`Result` in Rust) are modelled with `Option`.
- A panic (`expect` / `unwrap` on a failed value) is a distinct outcome
  constructor, never conflated with an error return.
- External collaborators not part of the repository sources (the
  `windows-capture` crate frame handle, the display enumeration, the mpsc
  channel) are modelled from their narrow interface contracts; their
  possible failures are injected as explicit boolean fields or parameters.
-/

set_option autoImplicit false

namespace Scap

/-- Real-valued point, `CGPoint` of the source (`f64` fields as `ℚ`). -/
structure CGPoint where
  x : ℚ
  y : ℚ
deriving DecidableEq, Repr

/-- Real-valued size, `CGSize` of the source (`f64` fields as `ℚ`). -/
structure CGSize where
  width : ℚ
  height : ℚ
deriving DecidableEq, Repr

/-- Rectangle, `CGRect` of the source. -/
structure CGRect where
  origin : CGPoint
  size : CGSize
deriving DecidableEq, Repr

/-- Truncation toward zero, the rounding used by Rust float-to-integer casts. -/
def rtrunc (x : ℚ) : Int :=
  if x < 0 then Int.ceil x else Int.floor x

/-- Rust `f64 as i64`: truncate toward zero, saturating at the `i64` bounds. -/
def f64_as_i64 (x : ℚ) : Int :=
  max (-(2 ^ 63)) (min (2 ^ 63 - 1) (rtrunc x))

/-- Rust `f64 as u32`: truncate toward zero, saturating at the `u32` bounds. -/
def f64_as_u32 (x : ℚ) : Nat :=
  (max 0 (min (2 ^ 32 - 1) (rtrunc x))).toNat

/-- Rust `f64 as i32`: truncate toward zero, saturating at the `i32` bounds. -/
def f64_as_i32 (x : ℚ) : Int :=
  max (-(2 ^ 31)) (min (2 ^ 31 - 1) (rtrunc x))

/-- Rust `u32 as i32`: reinterpret the 32-bit pattern as signed (wrapping). -/
def u32_as_i32 (n : Nat) : Int :=
  let m : Nat := n % 2 ^ 32
  if m < 2 ^ 31 then (m : Int) else (m : Int) - 2 ^ 32

/-- Modelled from the spec: the display-enumeration collaborator
(`crate::device::display::get_main_display`, not under `src/`). Spec section 3,
DisplayMetadata: width and height of the primary display "may fail, in which
case dimensions default to zero". The two fallible `Result` lookups
`display.width()` and `display.height()` are modelled as `Option Nat`. -/
structure MainDisplay where
  width : Option Nat
  height : Option Nat
deriving DecidableEq, Repr

/-- Modelled from the spec: `crate::capturer::Resolution` (not under `src/`).
`Captured` means "use native size"; every other variant is carried together
with the behaviour of its `value(aspect) -> [u32; 2]` method, which the spec
describes as an aspect-ratio-aware target size; it is kept fully abstract as
a function from the aspect argument to the returned pair. -/
inductive Resolution where
  | Captured : Resolution
  | Other : (ℚ → Nat × Nat) → Resolution

/-- `Options` (the fields of `crate::capturer::Options` read by the embedded
code: `source_rect` and `output_resolution`). -/
structure Options where
  source_rect : Option CGRect
  output_resolution : Resolution

/-- `get_source_rect` (win/mod.rs lines 206-253). The display lookup is an
explicit parameter; in the source it is the global
`display::get_main_display()`. Failed lookups degrade to 0. If a source
rectangle was requested, its width and height are cast `as i64` (truncation
toward zero) and an odd value is incremented by 1; the origin is kept. -/
def get_source_rect (display : MainDisplay) (options : Options) : CGRect :=
  let width : Nat := match display.width with
    | some val => val
    | none => 0
  let height : Nat := match display.height with
    | some val => val
    | none => 0
  match options.source_rect with
  | some val =>
    let input_width : Int :=
      if (f64_as_i64 val.size.width).tmod 2 = 0 then f64_as_i64 val.size.width
      else f64_as_i64 val.size.width + 1
    let input_height : Int :=
      if (f64_as_i64 val.size.height).tmod 2 = 0 then f64_as_i64 val.size.height
      else f64_as_i64 val.size.height + 1
    { origin := { x := val.origin.x, y := val.origin.y },
      size := { width := (input_width : ℚ), height := (input_height : ℚ) } }
  | none =>
    { origin := { x := 0, y := 0 },
      size := { width := (width : ℚ), height := (height : ℚ) } }

/-- The part of `get_output_frame_size` (win/mod.rs lines 178-193) before the
final parity adjustment: source dimensions cast `as u32`, then, unless the
selector is `Captured`, clamped element-wise by `cmp::min` against the
selector value computed from the aspect ratio. -/
def get_output_frame_size_pre (display : MainDisplay) (options : Options) :
    Nat × Nat :=
  let source_rect := get_source_rect display options
  let output_width := f64_as_u32 source_rect.size.width
  let output_height := f64_as_u32 source_rect.size.height
  match options.output_resolution with
  | Resolution.Captured => (output_width, output_height)
  | Resolution.Other value =>
    let resolved := value (source_rect.size.width / source_rect.size.height)
    (min output_width resolved.1, min output_height resolved.2)

/-- The final parity adjustment of `get_output_frame_size` (lines 195-201):
an odd dimension is decremented by 1. -/
def forceEvenDown (n : Nat) : Nat :=
  if n % 2 = 1 then n - 1 else n

/-- `get_output_frame_size` (win/mod.rs lines 178-204). -/
def get_output_frame_size (display : MainDisplay) (options : Options) :
    Nat × Nat :=
  let p := get_output_frame_size_pre display options
  (forceEvenDown p.1, forceEvenDown p.2)

/-- Byte row extraction used to model the platform crop: `n` rows, each
taken as `len` bytes at offset `off` of the current row, rows `pitch`
bytes apart. -/
def extractRows : List Nat → Nat → Nat → Nat → Nat → List Nat
  | _, _, _, _, 0 => []
  | data, pitch, off, len, n + 1 =>
    (data.drop off).take len ++ extractRows (data.drop pitch) pitch off len n

/-- Modelled from the spec: the raw platform frame handle of the
`windows-capture` crate (spec section 6: `raw_frame_handle` exposes
`width()`, `height()`, a full buffer and a cropped buffer, both without row
padding, and any platform call may itself error). `data` is the BGRA byte
surface, row-major, `width * height * 4` bytes. The three boolean fields
inject the platform-call failures of `buffer_crop`,
`as_raw_nopadding_buffer` and `buffer` respectively. -/
structure Wframe where
  width : Nat
  height : Nat
  data : List Nat
  crop_error : Bool
  nopadding_error : Bool
  buffer_error : Bool
deriving DecidableEq, Repr

/-- Modelled from the spec: the pixel buffer returned by the platform frame
handle (no row padding). `nopadding_error` carries the injected failure of a
later `as_raw_nopadding_buffer` call on this buffer. -/
structure FrameBuffer where
  width : Nat
  height : Nat
  data : List Nat
  nopadding_error : Bool
deriving DecidableEq, Repr

/-- Modelled from the spec: `frame.buffer_crop(start_x, start_y, end_x,
end_y)` of the platform collaborator. Fails if the platform call errors or
the requested bounds are not an ordered sub-region of the surface. -/
def buffer_crop (f : Wframe) (start_x start_y end_x end_y : Nat) :
    Option FrameBuffer :=
  if f.crop_error then none
  else if start_x ≤ end_x ∧ start_y ≤ end_y ∧ end_x ≤ f.width ∧
      end_y ≤ f.height then
    some { width := end_x - start_x,
           height := end_y - start_y,
           data := extractRows (f.data.drop (start_y * (f.width * 4)))
             (f.width * 4) (start_x * 4) ((end_x - start_x) * 4)
             (end_y - start_y),
           nopadding_error := f.nopadding_error }
  else none

/-- Modelled from the spec: `as_raw_nopadding_buffer()` on a platform
buffer; may fail on a platform error. -/
def as_raw_nopadding_buffer (b : FrameBuffer) : Option (List Nat) :=
  if b.nopadding_error then none else some b.data

/-- Modelled from the spec: `frame.buffer()` of the platform collaborator,
the full-frame buffer (no row padding per spec section 6); may fail on a
platform error. -/
def buffer (f : Wframe) : Option FrameBuffer :=
  if f.buffer_error then none
  else some { width := f.width, height := f.height, data := f.data,
              nopadding_error := f.nopadding_error }

/-- `BGRAFrame` of `crate::frame` as constructed by the embedded code:
`display_time` is `u64` nanoseconds, `width` and `height` are `i32`. -/
structure BGRAFrame where
  display_time : Nat
  width : Int
  height : Int
  data : List Nat
deriving DecidableEq, Repr

/-- The `Frame` variant the engine emits. -/
inductive Frame where
  | BGRA : BGRAFrame → Frame
deriving DecidableEq, Repr

/-- `Capturer` (win/mod.rs lines 27-31): the channel sender is kept as an
opaque token, the crop rectangle as in the source. -/
structure Capturer where
  tx : Nat
  crop : Option CGRect
deriving DecidableEq, Repr

/-- Outcome of one `on_frame_arrived` invocation. `ok` and `error` are the
`Result` values the callback can return to the platform layer; `panicked`
models a Rust panic raised by `expect` or `unwrap` (a crash, not a
returned value). -/
inductive Outcome where
  | ok : Outcome
  | error : String → Outcome
  | panicked : String → Outcome
deriving DecidableEq, Repr

/-- The cropped arm of `on_frame_arrived` (win/mod.rs lines 65-105).
`now` is the `SystemTime::now().duration_since(UNIX_EPOCH)` reading in
nanoseconds (a wall-clock value supplied by the environment); `as_nanos()
as u64` truncates it modulo `2 ^ 64`. `rx_open` tells whether the channel
receiver is still alive; `mpsc::Sender::send` fails exactly when it is not,
and the source calls `.expect("Failed to send data")` on that result.
The returned list holds the frames actually delivered into the channel. -/
def on_frame_cropped (cropped_area : CGRect) (frame : Wframe) (now : Nat)
    (rx_open : Bool) : Outcome × List Frame :=
  let start_x := f64_as_u32 cropped_area.origin.x
  let start_y := f64_as_u32 cropped_area.origin.y
  let end_x := f64_as_u32 (cropped_area.origin.x + cropped_area.size.width)
  let end_y := f64_as_u32 (cropped_area.origin.y + cropped_area.size.height)
  match buffer_crop frame start_x start_y end_x end_y with
  | none => (Outcome.panicked "Failed to crop buffer", [])
  | some cropped_buffer =>
    match as_raw_nopadding_buffer cropped_buffer with
    | none => (Outcome.error "Failed to get raw buffer", [])
    | some raw_frame_buffer =>
      let current_time := now % 2 ^ 64
      let bgr_frame : BGRAFrame :=
        { display_time := current_time,
          width := f64_as_i32 cropped_area.size.width,
          height := f64_as_i32 cropped_area.size.height,
          data := raw_frame_buffer }
      if rx_open then (Outcome.ok, [Frame.BGRA bgr_frame])
      else (Outcome.panicked "Failed to send data", [])

/-- The uncropped arm of `on_frame_arrived` (win/mod.rs lines 106-129):
`frame.buffer().unwrap()` panics on a platform error, then the raw buffer
is copied and sent with `.expect("Failed to send data")`. -/
def on_frame_uncropped (frame : Wframe) (now : Nat) (rx_open : Bool) :
    Outcome × List Frame :=
  match buffer frame with
  | none => (Outcome.panicked "called unwrap on an Err value", [])
  | some frame_buffer =>
    let frame_data := frame_buffer.data
    let current_time := now % 2 ^ 64
    let bgr_frame : BGRAFrame :=
      { display_time := current_time,
        width := u32_as_i32 frame.width,
        height := u32_as_i32 frame.height,
        data := frame_data }
    if rx_open then (Outcome.ok, [Frame.BGRA bgr_frame])
    else (Outcome.panicked "Failed to send data", [])

/-- `on_frame_arrived` (win/mod.rs lines 59-132): dispatch on `self.crop`. -/
def on_frame_arrived (cap : Capturer) (frame : Wframe) (now : Nat)
    (rx_open : Bool) : Outcome × List Frame :=
  match cap.crop with
  | some cropped_area => on_frame_cropped cropped_area frame now rx_open
  | none => on_frame_uncropped frame now rx_open

/-- `FlagStruct` (win/mod.rs lines 153-157). -/
structure FlagStruct where
  tx : Nat
  crop : Option CGRect
deriving DecidableEq, Repr

/-- `ColorFormat` of the platform settings. -/
inductive ColorFormat where
  | Rgba8 : ColorFormat
  | Bgra8 : ColorFormat
deriving DecidableEq, Repr

/-- The platform `Settings` as built by `create_capturer` (win/mod.rs lines
163-170): cursor flag, border flag, color format and the flags handed to
the handler. The monitor handle is an external token and is omitted. -/
structure Settings where
  cursor_capture : Option Bool
  draw_border : Option Bool
  color_format : ColorFormat
  flags : FlagStruct
deriving DecidableEq, Repr

/-- `WinStream` (win/mod.rs lines 45-48): settings plus the optional
stream control handle (a token for the platform `CaptureControl`). -/
structure WinStream where
  settings : Settings
  capture_control : Option Nat
deriving DecidableEq, Repr

/-- `WindowsCaptureHandler::new` for `Capturer` (win/mod.rs lines 54-57):
the handler is built from the flags. -/
def capturer_from_flags (f : FlagStruct) : Capturer :=
  { tx := f.tx, crop := f.crop }

/-- `create_capturer` (win/mod.rs lines 159-176): builds the settings with
`crop: Some(get_source_rect(options))` and an empty control handle. -/
def create_capturer (display : MainDisplay) (options : Options) (tx : Nat) :
    WinStream :=
  let settings : Settings :=
    { cursor_capture := some true,
      draw_border := none,
      color_format := ColorFormat.Bgra8,
      flags := { tx := tx, crop := some (get_source_rect display options) } }
  { settings := settings, capture_control := none }

/-- Outcome of `WinStream::start_capture`. -/
inductive StartOutcome where
  | started : WinStream → StartOutcome
  | panicked : StartOutcome
deriving DecidableEq, Repr

/-- `WinStream::start_capture` (win/mod.rs lines 141-145):
`Capturer::start_free_threaded(settings).unwrap()` — the platform result is
an explicit parameter (`some control` on success); a platform failure makes
the `unwrap` panic. No validation of the settings or geometry happens. -/
def start_capture (s : WinStream) (platform : Option Nat) : StartOutcome :=
  match platform with
  | some control => StartOutcome.started { s with capture_control := some control }
  | none => StartOutcome.panicked

/-- Outcome of `WinStream::stop_capture`. -/
inductive StopOutcome where
  | stopped : WinStream → StopOutcome
  | panicked : StopOutcome
deriving DecidableEq, Repr

/-- `WinStream::stop_capture` (win/mod.rs lines 147-150):
`self.capture_control.take().unwrap()` panics when the handle is absent;
otherwise the handle is taken (released) and `stop()` is called on it,
its result discarded. -/
def stop_capture (s : WinStream) : StopOutcome :=
  match s.capture_control with
  | some _ => StopOutcome.stopped { s with capture_control := none }
  | none => StopOutcome.panicked

/-- Number of stream-handle releases across a sequence of `n` consecutive
`stop_capture` calls starting from state `s`; a panic aborts the process,
so no further call happens after it. -/
def count_releases : WinStream → Nat → Nat
  | _, 0 => 0
  | s, n + 1 =>
    match stop_capture s with
    | StopOutcome.stopped s2 => 1 + count_releases s2 n
    | StopOutcome.panicked => 0

/-- The frame a callback invocation delivered, if exactly one. -/
def sent_frame (p : Outcome × List Frame) : Option BGRAFrame :=
  match p.2 with
  | [Frame.BGRA b] => some b
  | _ => none

/-- Width field of the delivered frame. -/
def sent_width (p : Outcome × List Frame) : Option Int :=
  (sent_frame p).map BGRAFrame.width

/-- Height field of the delivered frame. -/
def sent_height (p : Outcome × List Frame) : Option Int :=
  (sent_frame p).map BGRAFrame.height

/-- Byte length of the delivered frame's buffer. -/
def sent_data_len (p : Outcome × List Frame) : Option Nat :=
  ((sent_frame p).map BGRAFrame.data).map List.length

/-- Timestamp of the delivered frame. -/
def sent_time (p : Outcome × List Frame) : Option Nat :=
  (sent_frame p).map BGRAFrame.display_time

/-- Spec-side rounding: round an integer up to the nearest even integer
(odd becomes value + 1, even unchanged). -/
def roundUpToEven (n : Int) : Int :=
  if n.tmod 2 = 0 then n else n + 1

/-- Spec-side definition of `resolve_source_rect`, worded from the amended
claim C4: with a requested rectangle, keep the origin and take each
dimension truncated toward zero to an integer and then rounded up to the
nearest even integer; with no requested rectangle, the full display size at
origin (0,0), degrading to 0 on metadata failure. -/
def resolve_source_rect_spec (display : MainDisplay) (options : Options) :
    CGRect :=
  match options.source_rect with
  | some val =>
    { origin := val.origin,
      size := { width := (roundUpToEven (rtrunc val.size.width) : ℚ),
                height := (roundUpToEven (rtrunc val.size.height) : ℚ) } }
  | none =>
    { origin := { x := 0, y := 0 },
      size := { width := ((display.width.getD 0 : Nat) : ℚ),
                height := ((display.height.getD 0 : Nat) : ℚ) } }

/-! Concrete example inputs used by witnesses and counterexamples. -/

/-- A well-formed 4x4 platform frame (64 bytes, no injected failures). -/
def wfC : Wframe :=
  { width := 4, height := 4, data := List.range 64,
    crop_error := false, nopadding_error := false, buffer_error := false }

/-- A 2x2 crop rectangle at the origin. -/
def rectC : CGRect := { origin := { x := 0, y := 0 }, size := { width := 2, height := 2 } }

/-- A capturer cropping to `rectC`. -/
def capC : Capturer := { tx := 0, crop := some rectC }

/-- A capturer with no crop rectangle. -/
def capNoneC : Capturer := { tx := 0, crop := none }

/-- Crop rectangle with fractional origin and fractional size. -/
def r7C : CGRect := { origin := { x := 1/2, y := 0 }, size := { width := 5/2, height := 2 } }

/-- Crop rectangle with fractional origin and integer size. -/
def r7wC : CGRect := { origin := { x := 1/2, y := 0 }, size := { width := 2, height := 2 } }

/-- A 1920x1080 display lookup that succeeds. -/
def d4C : MainDisplay := { width := some 1920, height := some 1080 }

/-- A display lookup that fails on both dimensions. -/
def dNoneC : MainDisplay := { width := none, height := none }

/-- Requested source rectangle with fractional width 5/2. -/
def rect4C : CGRect := { origin := { x := 0, y := 0 }, size := { width := 5/2, height := 2 } }

/-- Options requesting `rect4C` at native resolution. -/
def o4C : Options := { source_rect := some rect4C, output_resolution := Resolution.Captured }

/-- Options requesting a 1920x1080 region with a 1280x720 target selector. -/
def o5C : Options :=
  { source_rect := some { origin := { x := 0, y := 0 }, size := { width := 1920, height := 1080 } },
    output_resolution := Resolution.Other (fun _ => (1280, 720)) }

/-- Options with no source rectangle at native resolution. -/
def o6C : Options := { source_rect := none, output_resolution := Resolution.Captured }

/-- A concrete settings value. -/
def settingsC : Settings :=
  { cursor_capture := some true, draw_border := none,
    color_format := ColorFormat.Bgra8, flags := { tx := 0, crop := none } }

/-- A well-formed 2x1 platform frame (8 bytes). -/
def f8C : Wframe :=
  { width := 2, height := 1, data := [0, 1, 2, 3, 4, 5, 6, 7],
    crop_error := false, nopadding_error := false, buffer_error := false }

/-! Helper lemmas about the cast functions. -/

theorem rtrunc_natCast (n : Nat) : rtrunc (n : ℚ) = n := by
  have h : ¬((n : ℚ) < 0) := not_lt.mpr (by positivity)
  simp [rtrunc, h]

theorem rtrunc_nonneg {x : ℚ} (hx : 0 ≤ x) : rtrunc x = Int.floor x := by
  simp [rtrunc, not_lt.mpr hx]

theorem f64_as_u32_natCast {n : Nat} (h : n < 2 ^ 32) : f64_as_u32 (n : ℚ) = n := by
  unfold f64_as_u32
  rw [rtrunc_natCast]
  have h1 : (n : Int) ≤ 2 ^ 32 - 1 := by omega
  rw [min_eq_right h1, max_eq_right (Int.natCast_nonneg n)]
  omega

theorem f64_as_u32_eq_floor {x : ℚ} (hx : 0 ≤ x) (hb : Int.floor x ≤ 2 ^ 32 - 1) :
    f64_as_u32 x = (Int.floor x).toNat := by
  unfold f64_as_u32
  rw [rtrunc_nonneg hx, min_eq_right hb, max_eq_right (Int.floor_nonneg.mpr hx)]

theorem f64_as_u32_le {x : ℚ} (hx : 0 ≤ x) : ((f64_as_u32 x : Nat) : ℚ) ≤ x := by
  unfold f64_as_u32
  rw [rtrunc_nonneg hx]
  have h0 : (0 : Int) ≤ min (2 ^ 32 - 1) (Int.floor x) :=
    le_min (by norm_num) (Int.floor_nonneg.mpr hx)
  rw [max_eq_right h0]
  have h1 : ((min ((2 : Int) ^ 32 - 1) (Int.floor x)).toNat : Int) ≤ Int.floor x := by
    have := min_le_right ((2 : Int) ^ 32 - 1) (Int.floor x)
    omega
  calc ((min ((2 : Int) ^ 32 - 1) (Int.floor x)).toNat : ℚ)
      = (((min ((2 : Int) ^ 32 - 1) (Int.floor x)).toNat : Int) : ℚ) := by norm_cast
    _ ≤ ((Int.floor x : Int) : ℚ) := by exact_mod_cast h1
    _ ≤ x := Int.floor_le x

theorem f64_as_i32_natCast {n : Nat} (h : n < 2 ^ 31) : f64_as_i32 (n : ℚ) = n := by
  unfold f64_as_i32
  rw [rtrunc_natCast]
  have h1 : (n : Int) ≤ 2 ^ 31 - 1 := by omega
  rw [min_eq_right h1, max_eq_right (by omega : (-(2 ^ 31) : Int) ≤ (n : Int))]

theorem u32_as_i32_of_lt {n : Nat} (h : n < 2 ^ 31) : u32_as_i32 n = n := by
  have h32 : n % 2 ^ 32 = n := Nat.mod_eq_of_lt (by omega)
  simp only [u32_as_i32, h32]
  rw [if_pos (by omega)]

theorem rtrunc_le_upper {x : ℚ} (h : x < 2 ^ 63 - 1) : rtrunc x ≤ 2 ^ 63 - 1 := by
  unfold rtrunc
  split
  next hneg =>
    have hc : Int.ceil x ≤ 0 := Int.ceil_le.mpr (by push_cast; linarith)
    omega
  next hpos =>
    have : Int.floor x < 2 ^ 63 - 1 := by
      rw [Int.floor_lt]
      exact lt_of_lt_of_le h (by norm_num)
    omega

theorem rtrunc_ge_lower {x : ℚ} (h : -(2 ^ 63) < x) : -(2 ^ 63) ≤ rtrunc x := by
  unfold rtrunc
  split
  next hneg =>
    have : (-(2 ^ 63) : Int) < Int.ceil x := by
      rw [Int.lt_ceil]
      exact lt_of_le_of_lt (by norm_num) h
    omega
  next hpos =>
    have hx : (0 : ℚ) ≤ x := not_lt.mp hpos
    have : (0 : Int) ≤ Int.floor x := Int.floor_nonneg.mpr hx
    omega

theorem f64_as_i64_eq_rtrunc {x : ℚ} (h1 : -(2 ^ 63) < x) (h2 : x < 2 ^ 63 - 1) :
    f64_as_i64 x = rtrunc x := by
  unfold f64_as_i64
  rw [min_eq_right (rtrunc_le_upper h2), max_eq_right (rtrunc_ge_lower h1)]

theorem rtrunc_eval {x : ℚ} {n : Nat} (h1 : (n : ℚ) ≤ x) (h2 : x < n + 1) :
    rtrunc x = n := by
  have hx : (0 : ℚ) ≤ x := le_trans (by positivity) h1
  rw [rtrunc_nonneg hx, Int.floor_eq_iff]
  constructor
  · exact_mod_cast h1
  · push_cast
    exact h2

theorem f64_as_u32_eval {x : ℚ} {n : Nat} (h1 : (n : ℚ) ≤ x) (h2 : x < n + 1)
    (h3 : n < 2 ^ 32) : f64_as_u32 x = n := by
  unfold f64_as_u32
  rw [rtrunc_eval h1 h2, min_eq_right (by omega), max_eq_right (Int.natCast_nonneg n)]
  omega

theorem f64_as_i32_eval {x : ℚ} {n : Nat} (h1 : (n : ℚ) ≤ x) (h2 : x < n + 1)
    (h3 : n < 2 ^ 31) : f64_as_i32 x = n := by
  unfold f64_as_i32
  rw [rtrunc_eval h1 h2, min_eq_right (by omega), max_eq_right (by omega)]

theorem f64_as_i64_eval {x : ℚ} {n : Nat} (h1 : (n : ℚ) ≤ x) (h2 : x < n + 1)
    (h3 : n < 2 ^ 63) : f64_as_i64 x = n := by
  unfold f64_as_i64
  rw [rtrunc_eval h1 h2, min_eq_right (by omega), max_eq_right (by omega)]

/-! Helper lemmas about the row extraction. -/

theorem extractRows_length :
    ∀ (n : Nat) (data : List Nat) (pitch off len : Nat),
      off + len ≤ pitch → n * pitch ≤ data.length →
      (extractRows data pitch off len n).length = n * len := by
  intro n
  induction n with
  | zero => intro data pitch off len h1 h2; simp [extractRows]
  | succ k ih =>
    intro data pitch off len h1 h2
    have hp : pitch ≤ data.length := by
      have hk : pitch ≤ (k + 1) * pitch := Nat.le_mul_of_pos_left pitch k.succ_pos
      omega
    have hrec : k * pitch ≤ (data.drop pitch).length := by
      rw [List.length_drop]
      have hs : (k + 1) * pitch = k * pitch + pitch := by ring
      omega
    simp only [extractRows, List.length_append, List.length_take, List.length_drop,
      ih (data.drop pitch) pitch off len h1 hrec]
    have hs : (k + 1) * len = k * len + len := by ring
    omega

theorem extractRows_full :
    ∀ (n : Nat) (p : Nat) (data : List Nat), data.length = n * p →
      extractRows data p 0 p n = data := by
  intro n
  induction n with
  | zero =>
    intro p data h
    simp only [Nat.zero_mul] at h
    rw [List.length_eq_zero] at h
    rw [h]
    rfl
  | succ k ih =>
    intro p data h
    have hs : (k + 1) * p = k * p + p := by ring
    simp only [extractRows, List.drop_zero]
    rw [ih p (data.drop p) (by rw [List.length_drop]; omega)]
    exact List.take_append_drop p data

/-! Helper lemmas about the parity adjustment. -/

theorem forceEvenDown_even (n : Nat) : forceEvenDown n % 2 = 0 := by
  unfold forceEvenDown
  split <;> omega

theorem forceEvenDown_le (n : Nat) : forceEvenDown n ≤ n := by
  unfold forceEvenDown
  split <;> omega

/-! Structural lemmas about `buffer_crop` and the two arms of
`on_frame_arrived`. -/

theorem buffer_crop_of_crop_error {f : Wframe} (h : f.crop_error = true)
    (a b c d : Nat) : buffer_crop f a b c d = none := by
  simp [buffer_crop, h]

theorem buffer_crop_eq_some {f : Wframe} {sx sy ex ey : Nat}
    (h : f.crop_error = false) (h1 : sx ≤ ex) (h2 : sy ≤ ey)
    (h3 : ex ≤ f.width) (h4 : ey ≤ f.height) :
    buffer_crop f sx sy ex ey =
      some { width := ex - sx, height := ey - sy,
             data := extractRows (f.data.drop (sy * (f.width * 4)))
               (f.width * 4) (sx * 4) ((ex - sx) * 4) (ey - sy),
             nopadding_error := f.nopadding_error } := by
  simp [buffer_crop, h, h1, h2, h3, h4]

theorem buffer_crop_nopadding {f : Wframe} {sx sy ex ey : Nat} {cb : FrameBuffer}
    (hcb : buffer_crop f sx sy ex ey = some cb) :
    cb.nopadding_error = f.nopadding_error := by
  unfold buffer_crop at hcb
  split at hcb
  · exact absurd hcb (by simp)
  · split at hcb
    · cases hcb; rfl
    · exact absurd hcb (by simp)

theorem on_frame_cropped_of_buffer_crop_none {r : CGRect} {f : Wframe}
    (now : Nat) (rx : Bool)
    (hcb : buffer_crop f (f64_as_u32 r.origin.x) (f64_as_u32 r.origin.y)
      (f64_as_u32 (r.origin.x + r.size.width))
      (f64_as_u32 (r.origin.y + r.size.height)) = none) :
    on_frame_cropped r f now rx = (Outcome.panicked "Failed to crop buffer", []) := by
  simp only [on_frame_cropped]
  rw [hcb]

theorem on_frame_cropped_of_nopadding_error {r : CGRect} {f : Wframe}
    {cb : FrameBuffer} (now : Nat) (rx : Bool)
    (hcb : buffer_crop f (f64_as_u32 r.origin.x) (f64_as_u32 r.origin.y)
      (f64_as_u32 (r.origin.x + r.size.width))
      (f64_as_u32 (r.origin.y + r.size.height)) = some cb)
    (hnp : f.nopadding_error = true) :
    on_frame_cropped r f now rx = (Outcome.error "Failed to get raw buffer", []) := by
  simp only [on_frame_cropped]
  rw [hcb]
  have h2 : as_raw_nopadding_buffer cb = none := by
    simp [as_raw_nopadding_buffer, buffer_crop_nopadding hcb, hnp]
  simp [h2]

theorem on_frame_cropped_of_extraction_ok {r : CGRect} {f : Wframe}
    {cb : FrameBuffer} (now : Nat) (rx : Bool)
    (hcb : buffer_crop f (f64_as_u32 r.origin.x) (f64_as_u32 r.origin.y)
      (f64_as_u32 (r.origin.x + r.size.width))
      (f64_as_u32 (r.origin.y + r.size.height)) = some cb)
    (hnp : f.nopadding_error = false) :
    on_frame_cropped r f now rx =
      (if rx then
        (Outcome.ok,
         [Frame.BGRA { display_time := now % 2 ^ 64,
                       width := f64_as_i32 r.size.width,
                       height := f64_as_i32 r.size.height,
                       data := cb.data }])
      else (Outcome.panicked "Failed to send data", [])) := by
  simp only [on_frame_cropped]
  rw [hcb]
  have h2 : as_raw_nopadding_buffer cb = some cb.data := by
    simp [as_raw_nopadding_buffer, buffer_crop_nopadding hcb, hnp]
  simp [h2]

theorem on_frame_uncropped_of_buffer_error {f : Wframe} (now : Nat) (rx : Bool)
    (h : f.buffer_error = true) :
    on_frame_uncropped f now rx =
      (Outcome.panicked "called unwrap on an Err value", []) := by
  simp only [on_frame_uncropped]
  have hb : buffer f = none := by simp [buffer, h]
  rw [hb]

theorem on_frame_uncropped_of_buffer_ok {f : Wframe} (now : Nat) (rx : Bool)
    (h : f.buffer_error = false) :
    on_frame_uncropped f now rx =
      (if rx then
        (Outcome.ok,
         [Frame.BGRA { display_time := now % 2 ^ 64,
                       width := u32_as_i32 f.width,
                       height := u32_as_i32 f.height,
                       data := f.data }])
      else (Outcome.panicked "Failed to send data", [])) := by
  simp only [on_frame_uncropped]
  have hb : buffer f = some (FrameBuffer.mk f.width f.height f.data f.nopadding_error) := by
    simp [buffer, h]
  rw [hb]

/-- Every frame a cropped-arm invocation delivers is stamped with the clock
reading of that invocation, truncated to 64 bits. -/
theorem time_of_cropped {r : CGRect} {f : Wframe} {now : Nat} {rx : Bool}
    {b : BGRAFrame} (hb : Frame.BGRA b ∈ (on_frame_cropped r f now rx).2) :
    b.display_time = now % 2 ^ 64 := by
  cases hcb : buffer_crop f (f64_as_u32 r.origin.x) (f64_as_u32 r.origin.y)
      (f64_as_u32 (r.origin.x + r.size.width))
      (f64_as_u32 (r.origin.y + r.size.height)) with
  | none =>
    rw [on_frame_cropped_of_buffer_crop_none now rx hcb] at hb
    simp at hb
  | some cb =>
    cases hnp : f.nopadding_error with
    | true =>
      rw [on_frame_cropped_of_nopadding_error now rx hcb hnp] at hb
      simp at hb
    | false =>
      rw [on_frame_cropped_of_extraction_ok now rx hcb hnp] at hb
      cases rx with
      | true =>
        simp at hb
        simp [hb]
      | false => simp at hb

/-- Every frame an uncropped-arm invocation delivers is stamped with the
clock reading of that invocation, truncated to 64 bits. -/
theorem time_of_uncropped {f : Wframe} {now : Nat} {rx : Bool}
    {b : BGRAFrame} (hb : Frame.BGRA b ∈ (on_frame_uncropped f now rx).2) :
    b.display_time = now % 2 ^ 64 := by
  cases hbe : f.buffer_error with
  | true =>
    rw [on_frame_uncropped_of_buffer_error now rx hbe] at hb
    simp at hb
  | false =>
    rw [on_frame_uncropped_of_buffer_ok now rx hbe] at hb
    cases rx with
    | true =>
      simp at hb
      simp [hb]
    | false => simp at hb

/-! Lifecycle helper lemmas. -/

theorem count_releases_of_none {s : WinStream} (h : s.capture_control = none) :
    ∀ n, count_releases s n = 0 := by
  intro n
  cases n with
  | zero => rfl
  | succ k =>
    have hs : stop_capture s = StopOutcome.panicked := by
      unfold stop_capture
      rw [h]
    simp [count_releases, hs]

/-! Geometry helper lemmas. -/

theorem pre_le_source_w (display : MainDisplay) (options : Options) :
    (get_output_frame_size_pre display options).1 ≤
      f64_as_u32 (get_source_rect display options).size.width := by
  unfold get_output_frame_size_pre
  cases options.output_resolution with
  | Captured => exact le_refl _
  | Other value => exact min_le_left _ _

theorem pre_le_source_h (display : MainDisplay) (options : Options) :
    (get_output_frame_size_pre display options).2 ≤
      f64_as_u32 (get_source_rect display options).size.height := by
  unfold get_output_frame_size_pre
  cases options.output_resolution with
  | Captured => exact le_refl _
  | Other value => exact min_le_left _ _

/-! Claim C2. -/

/-- C2 counterexample: after a first `stop_capture` takes the handle, a
second `stop_capture` panics (`take().unwrap()` on `None`); it does not
fail with an `InvalidStateError` value, contrary to the claim. -/
theorem c2_counterexample :
    stop_capture { settings := settingsC, capture_control := some 7 } =
      StopOutcome.stopped { settings := settingsC, capture_control := none } ∧
    stop_capture { settings := settingsC, capture_control := none } =
      StopOutcome.panicked :=
  ⟨rfl, rfl⟩

/-- C2 (amended): calling `stop_capture` when no stream handle is held
panics rather than returning an error value; when a handle is held it is
taken and the state afterwards holds none; across any sequence of
consecutive `stop_capture` calls the handle is released at most once. -/
theorem c2_theorem (s : WinStream) (n : Nat) :
    (s.capture_control = none → stop_capture s = StopOutcome.panicked) ∧
    (∀ c, s.capture_control = some c →
      stop_capture s = StopOutcome.stopped { s with capture_control := none }) ∧
    count_releases s n ≤ 1 := by
  refine ⟨?_, ?_, ?_⟩
  · intro h
    unfold stop_capture
    rw [h]
  · intro c h
    unfold stop_capture
    rw [h]
  · cases n with
    | zero => simp [count_releases]
    | succ k =>
      cases h : s.capture_control with
      | none =>
        have hs : stop_capture s = StopOutcome.panicked := by
          unfold stop_capture
          rw [h]
        simp [count_releases, hs]
      | some c =>
        have hs : stop_capture s =
            StopOutcome.stopped { s with capture_control := none } := by
          unfold stop_capture
          rw [h]
        calc count_releases s (k + 1)
            = 1 + count_releases { s with capture_control := none } k := by
              simp [count_releases, hs]
          _ = 1 := by rw [count_releases_of_none rfl]
          _ ≤ 1 := le_refl 1

/-- C2 witness: concrete instances of `c2_theorem`. -/
theorem c2_witness :
    stop_capture { settings := settingsC, capture_control := none } =
      StopOutcome.panicked ∧
    count_releases { settings := settingsC, capture_control := some 7 } 3 ≤ 1 :=
  ⟨(c2_theorem { settings := settingsC, capture_control := none } 3).1 rfl,
   (c2_theorem { settings := settingsC, capture_control := some 7 } 3).2.2⟩

/-! Claim C6. -/

/-- C6 counterexample: with failed display metadata the resolved source
rectangle is 0 by 0, yet `start_capture` still starts the platform stream
(when the platform call succeeds); no `InvalidRegionError` is produced and
no zero-area check exists. -/
theorem c6_counterexample :
    (get_source_rect dNoneC o6C).size.width = 0 ∧
    (get_source_rect dNoneC o6C).size.height = 0 ∧
    start_capture (create_capturer dNoneC o6C 0) (some 0) =
      StartOutcome.started
        { create_capturer dNoneC o6C 0 with capture_control := some 0 } := by
  refine ⟨by decide, by decide, rfl⟩

/-- C6 (amended): `start_capture` performs no validation of the resolved
geometry: for every stream state, including one whose crop rectangle has
zero area, it installs the control handle and starts whenever the platform
call succeeds, and panics (rather than returning a region error) when the
platform call fails. -/
theorem c6_theorem (s : WinStream) (platform : Option Nat) :
    (platform = none → start_capture s platform = StartOutcome.panicked) ∧
    (∀ c, platform = some c →
      start_capture s platform =
        StartOutcome.started { s with capture_control := some c }) := by
  constructor
  · intro h
    rw [h]
    rfl
  · intro c h
    rw [h]
    rfl

/-- C6 witness: concrete instances of `c6_theorem` at the zero-area
stream of the counterexample. -/
theorem c6_witness :
    start_capture (create_capturer dNoneC o6C 0) none = StartOutcome.panicked ∧
    start_capture (create_capturer dNoneC o6C 0) (some 5) =
      StartOutcome.started
        { create_capturer dNoneC o6C 0 with capture_control := some 5 } :=
  ⟨(c6_theorem (create_capturer dNoneC o6C 0) none).1 rfl,
   (c6_theorem (create_capturer dNoneC o6C 0) (some 5)).2 5 rfl⟩

/-! Claim C10. -/

/-- C10: for every options value `create_capturer` installs
`crop = some (get_source_rect options)`, so the handler built from its
flags always takes the cropped arm of `on_frame_arrived`; the uncropped
arm is unreachable through this constructor. -/
theorem c10_theorem (display : MainDisplay) (options : Options) (tx : Nat)
    (f : Wframe) (now : Nat) (rx : Bool) :
    (capturer_from_flags (create_capturer display options tx).settings.flags).crop =
      some (get_source_rect display options) ∧
    on_frame_arrived (capturer_from_flags (create_capturer display options tx).settings.flags)
        f now rx =
      on_frame_cropped (get_source_rect display options) f now rx :=
  ⟨rfl, rfl⟩

/-! Claim C4. -/

/-- C4 counterexample: for the requested rectangle with width 5/2 the
resolved width is 2, which is smaller than the request, not the nearest
even integer rounded up (the origin is preserved). -/
theorem c4_counterexample :
    (get_source_rect d4C o4C).size.width = 2 ∧
    (get_source_rect d4C o4C).size.width < 5 / 2 ∧
    (get_source_rect d4C o4C).origin = CGPoint.mk 0 0 := by
  have hw : f64_as_i64 ((5 : ℚ) / 2) = 2 :=
    f64_as_i64_eval (n := 2) (by norm_num) (by norm_num) (by norm_num)
  have hh2 : f64_as_i64 (2 : ℚ) = 2 :=
    f64_as_i64_eval (n := 2) (by norm_num) (by norm_num) (by norm_num)
  have ht : ((2 : ℤ)).tmod 2 = 0 := by decide
  have hsrc : get_source_rect d4C o4C =
      CGRect.mk (CGPoint.mk 0 0) (CGSize.mk 2 2) := by
    simp only [get_source_rect, o4C, rect4C, hw, hh2, ht]
    norm_num
  rw [hsrc]
  refine ⟨rfl, by norm_num, rfl⟩

/-- C4 (amended): with a requested source rectangle (whose dimensions are
within the exactly-representable i64 range), `get_source_rect` keeps the
origin and maps each dimension by first truncating it toward zero to an
integer and then rounding that integer up to the nearest even integer
(odd becomes value + 1, even unchanged); with no requested rectangle it
returns origin (0,0) and the full display size, each dimension degrading
to 0 when the display-metadata lookup fails. -/
theorem c4_theorem :
    (∀ (display : MainDisplay) (options : Options) (r : CGRect),
      options.source_rect = some r →
      -(2 ^ 63) < r.size.width → r.size.width < 2 ^ 63 - 1 →
      -(2 ^ 63) < r.size.height → r.size.height < 2 ^ 63 - 1 →
      get_source_rect display options = resolve_source_rect_spec display options) ∧
    (∀ (display : MainDisplay) (options : Options),
      options.source_rect = none →
      get_source_rect display options = resolve_source_rect_spec display options) := by
  constructor
  · intro display options r h hw1 hw2 hh1 hh2
    simp only [get_source_rect, resolve_source_rect_spec, h]
    rw [f64_as_i64_eq_rtrunc hw1 hw2, f64_as_i64_eq_rtrunc hh1 hh2]
    unfold roundUpToEven
    rfl
  · intro display options h
    simp only [get_source_rect, resolve_source_rect_spec, h]
    rcases display with ⟨dw, dh⟩
    cases dw <;> cases dh <;> rfl

/-- C4 witness: concrete instances of `c4_theorem` (fractional request
5/2 by 2, and a request-less options value with failed metadata). -/
theorem c4_witness :
    get_source_rect d4C o4C = resolve_source_rect_spec d4C o4C ∧
    get_source_rect dNoneC o6C = resolve_source_rect_spec dNoneC o6C :=
  ⟨c4_theorem.1 d4C o4C rect4C rfl (by norm_num [rect4C]) (by norm_num [rect4C])
     (by norm_num [rect4C]) (by norm_num [rect4C]),
   c4_theorem.2 dNoneC o6C rfl⟩

/-! Claim C9. -/

/-- C9 counterexample: the timestamp source is the system wall clock, which
may be set backwards between frames; with clock readings 5 then 3
(both legal wall-clock values) the two delivered frames carry timestamps 5
then 3, so the emitted timestamps are not non-decreasing. -/
theorem c9_counterexample :
    sent_time (on_frame_arrived capNoneC wfC 5 true) = some 5 ∧
    sent_time (on_frame_arrived capNoneC wfC 3 true) = some 3 ∧
    ¬(5 ≤ 3) := by
  refine ⟨by decide, by decide, by decide⟩

/-- C9 (amended): every delivered frame is stamped at transform time with
the current wall-clock reading truncated to 64 bits (not a monotonic
clock); consequently timestamps across frames are non-decreasing exactly
when the underlying wall-clock readings are. -/
theorem c9_theorem :
    (∀ (cap : Capturer) (f : Wframe) (now : Nat) (rx : Bool) (b : BGRAFrame),
      Frame.BGRA b ∈ (on_frame_arrived cap f now rx).2 →
      b.display_time = now % 2 ^ 64) ∧
    (∀ (cap1 cap2 : Capturer) (f1 f2 : Wframe) (t1 t2 : Nat) (rx1 rx2 : Bool)
      (b1 b2 : BGRAFrame),
      Frame.BGRA b1 ∈ (on_frame_arrived cap1 f1 t1 rx1).2 →
      Frame.BGRA b2 ∈ (on_frame_arrived cap2 f2 t2 rx2).2 →
      t1 ≤ t2 → t2 < 2 ^ 64 →
      b1.display_time ≤ b2.display_time) := by
  have htime : ∀ (cap : Capturer) (f : Wframe) (now : Nat) (rx : Bool) (b : BGRAFrame),
      Frame.BGRA b ∈ (on_frame_arrived cap f now rx).2 →
      b.display_time = now % 2 ^ 64 := by
    intro cap f now rx b hb
    cases hc : cap.crop with
    | some r =>
      rw [show on_frame_arrived cap f now rx = on_frame_cropped r f now rx from by
        unfold on_frame_arrived
        rw [hc]] at hb
      exact time_of_cropped hb
    | none =>
      rw [show on_frame_arrived cap f now rx = on_frame_uncropped f now rx from by
        unfold on_frame_arrived
        rw [hc]] at hb
      exact time_of_uncropped hb
  refine ⟨htime, ?_⟩
  intro cap1 cap2 f1 f2 t1 t2 rx1 rx2 b1 b2 h1 h2 hle hlt
  rw [htime cap1 f1 t1 rx1 b1 h1, htime cap2 f2 t2 rx2 b2 h2]
  calc t1 % 2 ^ 64 ≤ t1 := Nat.mod_le t1 (2 ^ 64)
    _ ≤ t2 := hle
    _ = t2 % 2 ^ 64 := (Nat.mod_eq_of_lt hlt).symm

/-- C9 witness: a concrete instance of `c9_theorem` on a delivered frame. -/
theorem c9_witness :
    Frame.BGRA (BGRAFrame.mk 7 4 4 (List.range 64)) ∈
      (on_frame_arrived capNoneC wfC 7 true).2 ∧
    (BGRAFrame.mk 7 4 4 (List.range 64)).display_time = 7 % 2 ^ 64 :=
  ⟨by decide,
   c9_theorem.1 capNoneC wfC 7 true (BGRAFrame.mk 7 4 4 (List.range 64)) (by decide)⟩

/-- Helper: the 2x2 crop at the origin succeeds on any error-free frame at
least 2 pixels wide and tall. -/
theorem rectC_crop_exists (f : Wframe) (hc : f.crop_error = false)
    (h3 : 2 ≤ f.width) (h4 : 2 ≤ f.height) :
    ∃ cb, buffer_crop f (f64_as_u32 rectC.origin.x) (f64_as_u32 rectC.origin.y)
      (f64_as_u32 (rectC.origin.x + rectC.size.width))
      (f64_as_u32 (rectC.origin.y + rectC.size.height)) = some cb := by
  have hx : f64_as_u32 rectC.origin.x = 0 :=
    f64_as_u32_eval (by norm_num [rectC]) (by norm_num [rectC]) (by norm_num)
  have hy : f64_as_u32 rectC.origin.y = 0 :=
    f64_as_u32_eval (by norm_num [rectC]) (by norm_num [rectC]) (by norm_num)
  have hxe : f64_as_u32 (rectC.origin.x + rectC.size.width) = 2 :=
    f64_as_u32_eval (by norm_num [rectC]) (by norm_num [rectC]) (by norm_num)
  have hye : f64_as_u32 (rectC.origin.y + rectC.size.height) = 2 :=
    f64_as_u32_eval (by norm_num [rectC]) (by norm_num [rectC]) (by norm_num)
  rw [hx, hy, hxe, hye]
  exact ⟨_, @buffer_crop_eq_some f 0 0 2 2 hc (by omega) (by omega) h3 h4⟩

/-! Claim C5. -/

/-- C5: both dimensions of `get_output_frame_size` are even; under the data
model invariant that the resolved source dimensions are non-negative,
neither output dimension exceeds the corresponding resolved source
dimension (no upscaling); evenness is enforced by decrementing an odd
pre-parity dimension by 1, never by incrementing. -/
theorem c5_theorem (display : MainDisplay) (options : Options) :
    (get_output_frame_size display options).1 % 2 = 0 ∧
    (get_output_frame_size display options).2 % 2 = 0 ∧
    (0 ≤ (get_source_rect display options).size.width →
      ((get_output_frame_size display options).1 : ℚ) ≤
        (get_source_rect display options).size.width) ∧
    (0 ≤ (get_source_rect display options).size.height →
      ((get_output_frame_size display options).2 : ℚ) ≤
        (get_source_rect display options).size.height) ∧
    ((get_output_frame_size display options).1 =
        (get_output_frame_size_pre display options).1 ∨
      ((get_output_frame_size_pre display options).1 % 2 = 1 ∧
        (get_output_frame_size display options).1 =
          (get_output_frame_size_pre display options).1 - 1)) ∧
    ((get_output_frame_size display options).2 =
        (get_output_frame_size_pre display options).2 ∨
      ((get_output_frame_size_pre display options).2 % 2 = 1 ∧
        (get_output_frame_size display options).2 =
          (get_output_frame_size_pre display options).2 - 1)) := by
  have hq1 : (get_output_frame_size display options).1 =
      forceEvenDown (get_output_frame_size_pre display options).1 := rfl
  have hq2 : (get_output_frame_size display options).2 =
      forceEvenDown (get_output_frame_size_pre display options).2 := rfl
  refine ⟨?_, ?_, ?_, ?_, ?_, ?_⟩
  · rw [hq1]; exact forceEvenDown_even _
  · rw [hq2]; exact forceEvenDown_even _
  · intro h0
    have step : (get_output_frame_size display options).1 ≤
        f64_as_u32 (get_source_rect display options).size.width := by
      rw [hq1]
      exact le_trans (forceEvenDown_le _) (pre_le_source_w display options)
    calc ((get_output_frame_size display options).1 : ℚ)
        ≤ ((f64_as_u32 (get_source_rect display options).size.width : Nat) : ℚ) := by
          exact_mod_cast step
      _ ≤ _ := f64_as_u32_le h0
  · intro h0
    have step : (get_output_frame_size display options).2 ≤
        f64_as_u32 (get_source_rect display options).size.height := by
      rw [hq2]
      exact le_trans (forceEvenDown_le _) (pre_le_source_h display options)
    calc ((get_output_frame_size display options).2 : ℚ)
        ≤ ((f64_as_u32 (get_source_rect display options).size.height : Nat) : ℚ) := by
          exact_mod_cast step
      _ ≤ _ := f64_as_u32_le h0
  · rw [hq1]
    unfold forceEvenDown
    split
    next hp => exact Or.inr ⟨hp, rfl⟩
    next hp => exact Or.inl rfl
  · rw [hq2]
    unfold forceEvenDown
    split
    next hp => exact Or.inr ⟨hp, rfl⟩
    next hp => exact Or.inl rfl

/-- C5 witness: a concrete instance of `c5_theorem` on a 1920x1080 request
with a 1280x720 target selector. -/
theorem c5_witness :
    (get_output_frame_size d4C o5C).1 % 2 = 0 ∧
    (get_output_frame_size d4C o5C).2 % 2 = 0 ∧
    ((get_output_frame_size d4C o5C).1 : ℚ) ≤ (get_source_rect d4C o5C).size.width ∧
    ((get_output_frame_size d4C o5C).2 : ℚ) ≤ (get_source_rect d4C o5C).size.height := by
  have h1 : f64_as_i64 (1920 : ℚ) = 1920 :=
    f64_as_i64_eval (by norm_num) (by norm_num) (by norm_num)
  have h2 : f64_as_i64 (1080 : ℚ) = 1080 :=
    f64_as_i64_eval (by norm_num) (by norm_num) (by norm_num)
  have t1 : ((1920 : ℤ)).tmod 2 = 0 := by decide
  have t2 : ((1080 : ℤ)).tmod 2 = 0 := by decide
  have hsrc : get_source_rect d4C o5C =
      CGRect.mk (CGPoint.mk 0 0) (CGSize.mk 1920 1080) := by
    simp only [get_source_rect, o5C, h1, h2, t1, t2]
    norm_num
  have hw : (0 : ℚ) ≤ (get_source_rect d4C o5C).size.width := by
    rw [hsrc]; norm_num
  have hh : (0 : ℚ) ≤ (get_source_rect d4C o5C).size.height := by
    rw [hsrc]; norm_num
  exact ⟨(c5_theorem d4C o5C).1, (c5_theorem d4C o5C).2.1,
    (c5_theorem d4C o5C).2.2.1 hw, (c5_theorem d4C o5C).2.2.2.1 hh⟩

/-! Claim C1. -/

/-- C1 counterexample: a frame whose cropped-buffer request fails makes the
callback panic (the `expect` on `buffer_crop`), rather than surfacing a
buffer-extraction error result as the claim states. -/
theorem c1_counterexample :
    on_frame_arrived capC { wfC with crop_error := true } 0 true =
      (Outcome.panicked "Failed to crop buffer", []) := by
  have h := buffer_crop_of_crop_error
    (f := { wfC with crop_error := true }) rfl
    (f64_as_u32 rectC.origin.x) (f64_as_u32 rectC.origin.y)
    (f64_as_u32 (rectC.origin.x + rectC.size.width))
    (f64_as_u32 (rectC.origin.y + rectC.size.height))
  exact on_frame_cropped_of_buffer_crop_none 0 true h

/-- C1 (amended): only the raw-nopadding-buffer conversion failure in the
cropped path is surfaced as an error result from the callback, with no
frame sent into the channel, and a subsequent invocation whose extraction
succeeds still delivers its frame; a failure of the cropped-buffer request
itself, or of the full-buffer request in the uncropped path, makes the
callback panic (crash) instead of returning an error. -/
theorem c1_theorem :
    (∀ (r : CGRect) (f : Wframe) (now : Nat) (rx : Bool), f.crop_error = true →
      on_frame_cropped r f now rx = (Outcome.panicked "Failed to crop buffer", [])) ∧
    (∀ (f : Wframe) (now : Nat) (rx : Bool), f.buffer_error = true →
      on_frame_uncropped f now rx =
        (Outcome.panicked "called unwrap on an Err value", [])) ∧
    (∀ (r : CGRect) (f : Wframe) (now : Nat) (rx : Bool) (cb : FrameBuffer),
      buffer_crop f (f64_as_u32 r.origin.x) (f64_as_u32 r.origin.y)
        (f64_as_u32 (r.origin.x + r.size.width))
        (f64_as_u32 (r.origin.y + r.size.height)) = some cb →
      f.nopadding_error = true →
      on_frame_cropped r f now rx = (Outcome.error "Failed to get raw buffer", [])) ∧
    (∀ (r : CGRect) (f : Wframe) (now : Nat) (cb : FrameBuffer),
      buffer_crop f (f64_as_u32 r.origin.x) (f64_as_u32 r.origin.y)
        (f64_as_u32 (r.origin.x + r.size.width))
        (f64_as_u32 (r.origin.y + r.size.height)) = some cb →
      f.nopadding_error = false →
      on_frame_cropped r f now true =
        (Outcome.ok, [Frame.BGRA (BGRAFrame.mk (now % 2 ^ 64)
          (f64_as_i32 r.size.width) (f64_as_i32 r.size.height) cb.data)])) := by
  refine ⟨?_, ?_, ?_, ?_⟩
  · intro r f now rx hcf
    exact on_frame_cropped_of_buffer_crop_none now rx
      (buffer_crop_of_crop_error hcf _ _ _ _)
  · intro f now rx hbf
    exact on_frame_uncropped_of_buffer_error now rx hbf
  · intro r f now rx cb hcb hnp
    exact on_frame_cropped_of_nopadding_error now rx hcb hnp
  · intro r f now cb hcb hnp
    rw [on_frame_cropped_of_extraction_ok now true hcb hnp]
    rfl

/-- C1 witness: concrete instances of `c1_theorem`: a panicking crop
failure, a panicking full-buffer failure, an error-surfaced nopadding
failure with nothing sent, and a subsequent successful delivery. -/
theorem c1_witness :
    on_frame_cropped rectC { wfC with crop_error := true } 1 true =
      (Outcome.panicked "Failed to crop buffer", []) ∧
    on_frame_uncropped { wfC with buffer_error := true } 1 true =
      (Outcome.panicked "called unwrap on an Err value", []) ∧
    on_frame_cropped rectC { wfC with nopadding_error := true } 1 true =
      (Outcome.error "Failed to get raw buffer", []) ∧
    (on_frame_cropped rectC wfC 1 true).1 = Outcome.ok := by
  refine ⟨c1_theorem.1 rectC _ 1 true rfl, c1_theorem.2.1 _ 1 true rfl, ?_, ?_⟩
  · obtain ⟨cb, hcb⟩ :=
      rectC_crop_exists { wfC with nopadding_error := true } rfl (by decide) (by decide)
    exact c1_theorem.2.2.1 rectC _ 1 true cb hcb rfl
  · obtain ⟨cb, hcb⟩ := rectC_crop_exists wfC rfl (by decide) (by decide)
    rw [c1_theorem.2.2.2 rectC wfC 1 cb hcb rfl]

/-! Claim C3. -/

/-- C3 counterexample: with the channel receiver dropped, a successful
extraction ends in a panic at the `expect` around `send`, not in a
`ChannelClosedError` result; no frame is delivered. -/
theorem c3_counterexample :
    on_frame_cropped rectC wfC 0 false =
      (Outcome.panicked "Failed to send data", []) := by
  obtain ⟨cb, hcb⟩ := rectC_crop_exists wfC rfl (by decide) (by decide)
  rw [on_frame_cropped_of_extraction_ok 0 false hcb rfl]
  rfl

/-- C3 (amended): when the channel receiver has been dropped, the next
frame whose extraction succeeds makes the callback panic at the `expect`
around `send` (in both the cropped and the uncropped arm), rather than
returning a channel-closed error; the frame is not delivered. -/
theorem c3_theorem :
    (∀ (r : CGRect) (f : Wframe) (now : Nat) (cb : FrameBuffer),
      buffer_crop f (f64_as_u32 r.origin.x) (f64_as_u32 r.origin.y)
        (f64_as_u32 (r.origin.x + r.size.width))
        (f64_as_u32 (r.origin.y + r.size.height)) = some cb →
      f.nopadding_error = false →
      on_frame_cropped r f now false = (Outcome.panicked "Failed to send data", [])) ∧
    (∀ (f : Wframe) (now : Nat), f.buffer_error = false →
      on_frame_uncropped f now false = (Outcome.panicked "Failed to send data", [])) := by
  constructor
  · intro r f now cb hcb hnp
    rw [on_frame_cropped_of_extraction_ok now false hcb hnp]
    rfl
  · intro f now hbf
    rw [on_frame_uncropped_of_buffer_ok now false hbf]
    rfl

/-- C3 witness: concrete instances of `c3_theorem` in both arms. -/
theorem c3_witness :
    on_frame_cropped rectC wfC 5 false =
      (Outcome.panicked "Failed to send data", []) ∧
    on_frame_uncropped wfC 5 false =
      (Outcome.panicked "Failed to send data", []) := by
  constructor
  · obtain ⟨cb, hcb⟩ := rectC_crop_exists wfC rfl (by decide) (by decide)
    exact c3_theorem.1 rectC wfC 5 cb hcb rfl
  · exact c3_theorem.2 wfC 5 rfl

/-! Claim C8. -/

/-- C8: cropping with a rectangle equal to the full frame (origin (0,0),
size equal to the frame's width and height) produces a result bit-identical
to the uncropped full-buffer transform of the same raw frame at the same
transform-time clock reading. -/
theorem c8_theorem (tx : Nat) (f : Wframe) (now : Nat) (rx : Bool)
    (h1 : f.crop_error = false) (h2 : f.nopadding_error = false)
    (h3 : f.buffer_error = false)
    (h4 : f.data.length = f.width * f.height * 4)
    (h5 : f.width < 2 ^ 31) (h6 : f.height < 2 ^ 31) :
    on_frame_arrived
      (Capturer.mk tx (some (CGRect.mk (CGPoint.mk 0 0)
        (CGSize.mk (f.width : ℚ) (f.height : ℚ))))) f now rx =
    on_frame_arrived (Capturer.mk tx none) f now rx := by
  have e0 : f64_as_u32 (0 : ℚ) = 0 :=
    f64_as_u32_eval (by norm_num) (by norm_num) (by norm_num)
  have exw : f64_as_u32 ((0 : ℚ) + (f.width : ℚ)) = f.width := by
    rw [zero_add]
    exact f64_as_u32_natCast (by omega)
  have eyh : f64_as_u32 ((0 : ℚ) + (f.height : ℚ)) = f.height := by
    rw [zero_add]
    exact f64_as_u32_natCast (by omega)
  have hdata : extractRows f.data (f.width * 4) 0 (f.width * 4) f.height = f.data :=
    extractRows_full f.height (f.width * 4) f.data (by rw [h4]; ring)
  have hcb : buffer_crop f 0 0 f.width f.height =
      some (FrameBuffer.mk f.width f.height f.data f.nopadding_error) := by
    rw [@buffer_crop_eq_some f 0 0 f.width f.height h1
      (Nat.zero_le _) (Nat.zero_le _) (le_refl _) (le_refl _)]
    simp [hdata]
  have hcb2 : buffer_crop f
      (f64_as_u32 (CGRect.mk (CGPoint.mk 0 0)
        (CGSize.mk (f.width : ℚ) (f.height : ℚ))).origin.x)
      (f64_as_u32 (CGRect.mk (CGPoint.mk 0 0)
        (CGSize.mk (f.width : ℚ) (f.height : ℚ))).origin.y)
      (f64_as_u32 ((CGRect.mk (CGPoint.mk 0 0)
        (CGSize.mk (f.width : ℚ) (f.height : ℚ))).origin.x +
        (CGRect.mk (CGPoint.mk 0 0)
          (CGSize.mk (f.width : ℚ) (f.height : ℚ))).size.width))
      (f64_as_u32 ((CGRect.mk (CGPoint.mk 0 0)
        (CGSize.mk (f.width : ℚ) (f.height : ℚ))).origin.y +
        (CGRect.mk (CGPoint.mk 0 0)
          (CGSize.mk (f.width : ℚ) (f.height : ℚ))).size.height)) =
      some (FrameBuffer.mk f.width f.height f.data f.nopadding_error) := by
    show buffer_crop f (f64_as_u32 0) (f64_as_u32 0)
      (f64_as_u32 ((0 : ℚ) + (f.width : ℚ))) (f64_as_u32 ((0 : ℚ) + (f.height : ℚ))) =
      some (FrameBuffer.mk f.width f.height f.data f.nopadding_error)
    rw [e0, exw, eyh]
    exact hcb
  have hleft : on_frame_arrived
      (Capturer.mk tx (some (CGRect.mk (CGPoint.mk 0 0)
        (CGSize.mk (f.width : ℚ) (f.height : ℚ))))) f now rx =
      on_frame_cropped (CGRect.mk (CGPoint.mk 0 0)
        (CGSize.mk (f.width : ℚ) (f.height : ℚ))) f now rx := rfl
  have hright : on_frame_arrived (Capturer.mk tx none) f now rx =
      on_frame_uncropped f now rx := rfl
  rw [hleft, hright,
    on_frame_cropped_of_extraction_ok now rx hcb2 h2,
    on_frame_uncropped_of_buffer_ok now rx h3]
  have hwi : f64_as_i32 (CGRect.mk (CGPoint.mk 0 0)
      (CGSize.mk (f.width : ℚ) (f.height : ℚ))).size.width = u32_as_i32 f.width := by
    show f64_as_i32 ((f.width : Nat) : ℚ) = u32_as_i32 f.width
    rw [f64_as_i32_natCast h5, u32_as_i32_of_lt h5]
  have hhi : f64_as_i32 (CGRect.mk (CGPoint.mk 0 0)
      (CGSize.mk (f.width : ℚ) (f.height : ℚ))).size.height = u32_as_i32 f.height := by
    show f64_as_i32 ((f.height : Nat) : ℚ) = u32_as_i32 f.height
    rw [f64_as_i32_natCast h6, u32_as_i32_of_lt h6]
  rw [hwi, hhi]

/-- C8 witness: a concrete instance of `c8_theorem` on a 2x1 frame. -/
theorem c8_witness :
    f8C.data.length = f8C.width * f8C.height * 4 ∧
    on_frame_arrived
      (Capturer.mk 0 (some (CGRect.mk (CGPoint.mk 0 0)
        (CGSize.mk (f8C.width : ℚ) (f8C.height : ℚ))))) f8C 9 true =
    on_frame_arrived (Capturer.mk 0 none) f8C 9 true :=
  ⟨by decide,
   c8_theorem 0 f8C 9 true rfl rfl rfl (by decide) (by decide) (by decide)⟩

/-! Claim C7. -/

/-- C7 counterexample: for the crop rectangle with fractional origin 1/2
and fractional width 5/2 on a 4x4 frame, the emitted frame reports width 2
and height 2 but its buffer holds 24 bytes (the 3x2 pixel sub-region the
truncated bounds select), not width x height x 4 = 16 bytes as claimed. -/
theorem c7_counterexample :
    sent_width (on_frame_cropped r7C wfC 0 true) = some 2 ∧
    sent_height (on_frame_cropped r7C wfC 0 true) = some 2 ∧
    sent_data_len (on_frame_cropped r7C wfC 0 true) = some 24 ∧
    ¬(24 = 2 * 2 * 4) := by
  have hsx : f64_as_u32 r7C.origin.x = 0 :=
    f64_as_u32_eval (by norm_num [r7C]) (by norm_num [r7C]) (by norm_num)
  have hsy : f64_as_u32 r7C.origin.y = 0 :=
    f64_as_u32_eval (by norm_num [r7C]) (by norm_num [r7C]) (by norm_num)
  have hex : f64_as_u32 (r7C.origin.x + r7C.size.width) = 3 :=
    f64_as_u32_eval (by norm_num [r7C]) (by norm_num [r7C]) (by norm_num)
  have hey : f64_as_u32 (r7C.origin.y + r7C.size.height) = 2 :=
    f64_as_u32_eval (by norm_num [r7C]) (by norm_num [r7C]) (by norm_num)
  have hwi : f64_as_i32 r7C.size.width = 2 :=
    f64_as_i32_eval (by norm_num [r7C]) (by norm_num [r7C]) (by norm_num)
  have hhi : f64_as_i32 r7C.size.height = 2 :=
    f64_as_i32_eval (by norm_num [r7C]) (by norm_num [r7C]) (by norm_num)
  have hcb2 : buffer_crop wfC (f64_as_u32 r7C.origin.x) (f64_as_u32 r7C.origin.y)
      (f64_as_u32 (r7C.origin.x + r7C.size.width))
      (f64_as_u32 (r7C.origin.y + r7C.size.height)) =
      some (FrameBuffer.mk (3 - 0) (2 - 0)
        (extractRows (wfC.data.drop (0 * (wfC.width * 4))) (wfC.width * 4)
          (0 * 4) ((3 - 0) * 4) (2 - 0)) wfC.nopadding_error) := by
    rw [hsx, hsy, hex, hey]
    exact @buffer_crop_eq_some wfC 0 0 3 2 rfl (by decide) (by decide)
      (by decide) (by decide)
  have hres := on_frame_cropped_of_extraction_ok 0 true hcb2 rfl
  refine ⟨?_, ?_, ?_, by decide⟩
  · rw [hres]
    simp [sent_width, sent_frame, hwi]
  · rw [hres]
    simp [sent_height, sent_frame, hhi]
  · rw [hres]
    simp only [sent_data_len, sent_frame]
    decide

/-- C7 (amended): for a crop rectangle with non-negative origin and
non-negative integer size lying within the frame, the pixel bounds are the
origin truncated toward zero and that truncation shifted by the integer
size, the emitted frame's width and height equal the rectangle's size, the
byte buffer holds exactly width x height x 4 bytes copied from the
platform pixels, and the frame is delivered; for fractional sizes (see the
counterexample) the buffer instead holds
(end_x - start_x) x (end_y - start_y) x 4 bytes. -/
theorem c7_theorem (r : CGRect) (w h : Nat) (f : Wframe) (now : Nat)
    (hx : 0 ≤ r.origin.x) (hy : 0 ≤ r.origin.y)
    (hw : r.size.width = (w : ℚ)) (hh : r.size.height = (h : ℚ))
    (hbx : r.origin.x + (w : ℚ) ≤ (f.width : ℚ))
    (hby : r.origin.y + (h : ℚ) ≤ (f.height : ℚ))
    (hW : f.width < 2 ^ 32) (hH : f.height < 2 ^ 32)
    (hw31 : w < 2 ^ 31) (hh31 : h < 2 ^ 31)
    (hce : f.crop_error = false) (hne : f.nopadding_error = false)
    (hlen : f.data.length = f.width * f.height * 4) :
    f64_as_u32 r.origin.x = (Int.floor r.origin.x).toNat ∧
    f64_as_u32 r.origin.y = (Int.floor r.origin.y).toNat ∧
    f64_as_u32 (r.origin.x + r.size.width) = (Int.floor r.origin.x).toNat + w ∧
    f64_as_u32 (r.origin.y + r.size.height) = (Int.floor r.origin.y).toNat + h ∧
    sent_width (on_frame_cropped r f now true) = some (w : Int) ∧
    sent_height (on_frame_cropped r f now true) = some (h : Int) ∧
    sent_data_len (on_frame_cropped r f now true) = some (w * h * 4) ∧
    sent_time (on_frame_cropped r f now true) = some (now % 2 ^ 64) ∧
    (on_frame_cropped r f now true).1 = Outcome.ok := by
  have hfx0 : 0 ≤ Int.floor r.origin.x := Int.floor_nonneg.mpr hx
  have hfy0 : 0 ≤ Int.floor r.origin.y := Int.floor_nonneg.mpr hy
  have hfxw : Int.floor (r.origin.x + (w : ℚ)) = Int.floor r.origin.x + w :=
    Int.floor_add_nat r.origin.x w
  have hfyh : Int.floor (r.origin.y + (h : ℚ)) = Int.floor r.origin.y + h :=
    Int.floor_add_nat r.origin.y h
  have hxle : Int.floor r.origin.x + (w : ℤ) ≤ (f.width : ℤ) := by
    rw [← hfxw]
    have h9 : Int.floor (r.origin.x + (w : ℚ)) ≤ Int.floor ((f.width : ℚ)) :=
      Int.floor_mono hbx
    rwa [Int.floor_natCast] at h9
  have hyle : Int.floor r.origin.y + (h : ℤ) ≤ (f.height : ℤ) := by
    rw [← hfyh]
    have h9 : Int.floor (r.origin.y + (h : ℚ)) ≤ Int.floor ((f.height : ℚ)) :=
      Int.floor_mono hby
    rwa [Int.floor_natCast] at h9
  have e1 : f64_as_u32 r.origin.x = (Int.floor r.origin.x).toNat :=
    f64_as_u32_eq_floor hx (by omega)
  have e2 : f64_as_u32 r.origin.y = (Int.floor r.origin.y).toNat :=
    f64_as_u32_eq_floor hy (by omega)
  have e3 : f64_as_u32 (r.origin.x + r.size.width) =
      (Int.floor r.origin.x).toNat + w := by
    rw [hw, f64_as_u32_eq_floor (add_nonneg hx (by positivity))
      (by rw [hfxw]; omega), hfxw]
    omega
  have e4 : f64_as_u32 (r.origin.y + r.size.height) =
      (Int.floor r.origin.y).toNat + h := by
    rw [hh, f64_as_u32_eq_floor (add_nonneg hy (by positivity))
      (by rw [hfyh]; omega), hfyh]
    omega
  have hcb := @buffer_crop_eq_some f ((Int.floor r.origin.x).toNat)
    ((Int.floor r.origin.y).toNat) ((Int.floor r.origin.x).toNat + w)
    ((Int.floor r.origin.y).toNat + h) hce (by omega) (by omega)
    (by omega) (by omega)
  simp only [Nat.add_sub_cancel_left] at hcb
  have hcb2 : buffer_crop f (f64_as_u32 r.origin.x) (f64_as_u32 r.origin.y)
      (f64_as_u32 (r.origin.x + r.size.width))
      (f64_as_u32 (r.origin.y + r.size.height)) =
      some (FrameBuffer.mk w h
        (extractRows (f.data.drop ((Int.floor r.origin.y).toNat * (f.width * 4)))
          (f.width * 4) ((Int.floor r.origin.x).toNat * 4) (w * 4) h)
        f.nopadding_error) := by
    rw [e1, e2, e3, e4]
    exact hcb
  have hres := on_frame_cropped_of_extraction_ok now true hcb2 hne
  have hdl : (extractRows (f.data.drop ((Int.floor r.origin.y).toNat * (f.width * 4)))
      (f.width * 4) ((Int.floor r.origin.x).toNat * 4) (w * 4) h).length =
      h * (w * 4) := by
    apply extractRows_length
    · have h9 : (Int.floor r.origin.x).toNat + w ≤ f.width := by omega
      calc (Int.floor r.origin.x).toNat * 4 + w * 4
          = ((Int.floor r.origin.x).toNat + w) * 4 := by ring
        _ ≤ f.width * 4 := Nat.mul_le_mul_right 4 h9
    · rw [List.length_drop, hlen]
      have h9 : (Int.floor r.origin.y).toNat + h ≤ f.height := by omega
      have h10 : ((Int.floor r.origin.y).toNat + h) * (f.width * 4) ≤
          f.height * (f.width * 4) := Nat.mul_le_mul_right _ h9
      have h11 : f.width * f.height * 4 = f.height * (f.width * 4) := by ring
      have h12 : ((Int.floor r.origin.y).toNat + h) * (f.width * 4) =
          (Int.floor r.origin.y).toNat * (f.width * 4) + h * (f.width * 4) := by
        ring
      omega
  refine ⟨e1, e2, e3, e4, ?_, ?_, ?_, ?_, ?_⟩
  · rw [hres]
    simp [sent_width, sent_frame, hw, f64_as_i32_natCast hw31]
  · rw [hres]
    simp [sent_height, sent_frame, hh, f64_as_i32_natCast hh31]
  · rw [hres]
    simp only [sent_data_len, sent_frame]
    simp [hdl]
    ring
  · rw [hres]
    simp [sent_time, sent_frame]
  · rw [hres]
    rfl

/-- C7 witness: a concrete instance of `c7_theorem` with fractional origin
1/2 and integer size 2x2 on a 4x4 frame. -/
theorem c7_witness :
    f64_as_u32 r7wC.origin.x = (Int.floor r7wC.origin.x).toNat ∧
    f64_as_u32 (r7wC.origin.x + r7wC.size.width) =
      (Int.floor r7wC.origin.x).toNat + 2 ∧
    sent_width (on_frame_cropped r7wC wfC 0 true) = some 2 ∧
    sent_height (on_frame_cropped r7wC wfC 0 true) = some 2 ∧
    sent_data_len (on_frame_cropped r7wC wfC 0 true) = some (2 * 2 * 4) ∧
    (on_frame_cropped r7wC wfC 0 true).1 = Outcome.ok := by
  have h0 := c7_theorem r7wC 2 2 wfC 0 (by norm_num [r7wC]) (by norm_num [r7wC])
    (by norm_num [r7wC]) (by norm_num [r7wC]) (by norm_num [r7wC, wfC])
    (by norm_num [r7wC, wfC]) (by norm_num [wfC]) (by norm_num [wfC])
    (by norm_num) (by norm_num) rfl rfl (by decide)
  exact ⟨h0.1, h0.2.2.1, h0.2.2.2.2.1, h0.2.2.2.2.2.1, h0.2.2.2.2.2.2.1,
    h0.2.2.2.2.2.2.2.2⟩

end Scap
